import Mathlib

/-!
Verification of the dineai restaurant-assistant core against its
natural-language specification.

The Python source is shallowly embedded:

* dates are represented by their rata-die day number (`Nat`, day 1 =
  0001-01-01 of the proleptic Gregorian calendar, a Monday), which is
  order-isomorphic to Python `datetime.date` and supports `timedelta`
  arithmetic by addition; `strftime` is the explicit formatting function;
* Python `re` patterns are embedded as values of a small regular-expression
  AST executed by a fuel-indexed backtracking matcher with Python semantics
  (leftmost match, ordered alternation, greedy quantifiers, word
  boundaries);
* the supabase store is a list of rows plus failure flags; store calls
  return `Except`, mirroring the try/except structure of the source;
* the external `dateutil.parser.parse` capability (not part of this
  repository) is a parameter `DuOracle`, so theorems quantify over (or pin
  by hypothesis) its behaviour.
-/

namespace DineAI

/-- The apostrophe character as a string (used when building the literal
message strings of the Python source). -/
def apos : String := (Char.ofNat 39).toString

/-- Bool test that `pfx` is a prefix of `l` (character lists). -/
def listHasPfx : List Char → List Char → Bool
  | [], _ => true
  | _ :: _, [] => false
  | a :: as, b :: bs => a = b && listHasPfx as bs

/-- Bool test that `n` occurs as a contiguous substring of `h`
(Python `n in h` on strings), on character lists. -/
def isSubstrL (n : List Char) : List Char → Bool
  | [] => listHasPfx n []
  | c :: t => listHasPfx n (c :: t) || isSubstrL n t

/-- Python `needle in hay` for strings. -/
def isSubstr (needle hay : String) : Bool :=
  isSubstrL needle.data hay.data

/-- Python `s.lower()` (ASCII). -/
def pyLower (s : String) : String :=
  (s.data.map Char.toLower).asString

/-- Python `s.strip()`: drop whitespace from both ends. -/
def pyStrip (s : String) : String :=
  (((s.data.dropWhile Char.isWhitespace).reverse.dropWhile
      Char.isWhitespace).reverse).asString

/-- Python `s.split(sep)` for a single-character separator (the uses in
scope split on `:`, `-` and `/`). -/
def splitOnCharGo (sep : Char) : List Char → List Char → List String
  | acc, [] => [acc.reverse.asString]
  | acc, c :: cs =>
    if c = sep then acc.reverse.asString :: splitOnCharGo sep [] cs
    else splitOnCharGo sep (c :: acc) cs

/-- Python `s.split(sep)` (single-character separator). -/
def splitOnChar (sep : Char) (s : String) : List String :=
  splitOnCharGo sep [] s.data

/-- Python `sep.join(l)`. -/
def joinWith (sep : String) : List String → String
  | [] => ""
  | [x] => x
  | x :: xs => x ++ sep ++ joinWith sep xs

/-- Python `s.startswith(p)`. -/
def strStartsWith (s p : String) : Bool :=
  listHasPfx p.data s.data

/-- Python `str.title()` restricted to ASCII: a letter is uppercased when the
previous character is not a letter and lowercased otherwise. -/
def pyTitleGo : Bool → List Char → List Char
  | _, [] => []
  | prevAlpha, c :: cs =>
    if c.isAlpha then
      (if prevAlpha then c.toLower else c.toUpper) :: pyTitleGo true cs
    else
      c :: pyTitleGo false cs

/-- Python `str.title()` (ASCII). -/
def pyTitle (s : String) : String :=
  (pyTitleGo false s.data).asString

/-- Value of a nonempty all-digit character list; `none` otherwise. -/
def digitsVal : List Char → Option Nat
  | [] => none
  | cs =>
    if cs.all Char.isDigit then
      some (cs.foldl (fun a c => a * 10 + (c.toNat - 48)) 0)
    else none

/-- Python `int(s)` on a decimal string: optional surrounding whitespace,
optional sign, then digits (underscore separators and non-ASCII digits are
not modelled; no input in scope uses them). -/
def parseIntPy (s : String) : Option Int :=
  match (pyStrip s).data with
  | '+' :: rest => (digitsVal rest).map (fun n => (n : Int))
  | '-' :: rest => (digitsVal rest).map (fun n => -(n : Int))
  | rest => (digitsVal rest).map (fun n => (n : Int))

/-! ## Proleptic Gregorian calendar -/

/-- Gregorian leap year. -/
def isLeap (y : Nat) : Bool :=
  y % 4 = 0 && (y % 100 ≠ 0 || y % 400 = 0)

/-- Days in month `m` of year `y` (months 1..12). -/
def daysInMonth (y m : Nat) : Nat :=
  if m = 2 then (if isLeap y then 29 else 28)
  else if m = 4 || m = 6 || m = 9 || m = 11 then 30
  else 31

/-- Days of year `y` strictly before month `m` (1-based month). -/
def daysBeforeMonth (y m : Nat) : Nat :=
  ([0, 31, 59, 90, 120, 151, 181, 212, 243, 273, 304, 334].getD (m - 1) 0)
    + (if 2 < m && isLeap y then 1 else 0)

/-- Rata-die day number of the civil date `y-m-d`; day 1 is 0001-01-01. -/
def rdOfCivil (y m d : Nat) : Nat :=
  let a := y - 1
  365 * a + (a / 4 - a / 100 + a / 400) + daysBeforeMonth y m + d

/-- Month (1..12) of a 0-based day-of-year `doy` in year `y`. -/
def monthOfDoy (y doy : Nat) : Nat :=
  if daysBeforeMonth y 12 ≤ doy then 12
  else if daysBeforeMonth y 11 ≤ doy then 11
  else if daysBeforeMonth y 10 ≤ doy then 10
  else if daysBeforeMonth y 9 ≤ doy then 9
  else if daysBeforeMonth y 8 ≤ doy then 8
  else if daysBeforeMonth y 7 ≤ doy then 7
  else if daysBeforeMonth y 6 ≤ doy then 6
  else if daysBeforeMonth y 5 ≤ doy then 5
  else if daysBeforeMonth y 4 ≤ doy then 4
  else if daysBeforeMonth y 3 ≤ doy then 3
  else if daysBeforeMonth y 2 ≤ doy then 2
  else 1

/-- Civil date `(y, m, d)` of a rata-die day number (inverse of
`rdOfCivil` on valid dates), via 400/100/4/1-year cycle division. -/
def civilOfRd (rd : Nat) : Nat × Nat × Nat :=
  let d0 := rd - 1
  let q400 := d0 / 146097
  let r1 := d0 % 146097
  let q100 := min (r1 / 36524) 3
  let r2 := r1 - 36524 * q100
  let q4 := r2 / 1461
  let r3 := r2 % 1461
  let q1 := min (r3 / 365) 3
  let doy := r3 - 365 * q1
  let y := 400 * q400 + 100 * q100 + 4 * q4 + q1 + 1
  let m := monthOfDoy y doy
  (y, m, doy - daysBeforeMonth y m + 1)

/-- Python `date.weekday()`: Monday = 0 .. Sunday = 6.  Rata die 1
(0001-01-01) is a Monday. -/
def weekdayOfRd (rd : Nat) : Nat :=
  (rd + 6) % 7

/-- Zero-pad to two digits. -/
def pad2 (n : Nat) : String :=
  if n < 10 then "0" ++ toString n else toString n

/-- Zero-pad to four digits. -/
def pad4 (n : Nat) : String :=
  if n < 10 then "000" ++ toString n
  else if n < 100 then "00" ++ toString n
  else if n < 1000 then "0" ++ toString n
  else toString n

/-- Python `date.strftime("%Y-%m-%d")` of a civil date. -/
def formatCivil (y m d : Nat) : String :=
  pad4 y ++ "-" ++ pad2 m ++ "-" ++ pad2 d

/-- Python `date.strftime("%Y-%m-%d")` of a rata-die day number. -/
def formatRD (rd : Nat) : String :=
  match civilOfRd rd with
  | (y, m, d) => formatCivil y m d

/-- Full weekday names indexed by `weekdayOfRd`. -/
def weekdayLongNames : List String :=
  ["Monday", "Tuesday", "Wednesday", "Thursday", "Friday", "Saturday", "Sunday"]

/-- Full month names, 1-based. -/
def monthLongNames : List String :=
  ["January", "February", "March", "April", "May", "June", "July",
   "August", "September", "October", "November", "December"]

/-- Python `date.strftime("%A, %B %d, %Y")`. -/
def formatLong (rd : Nat) : String :=
  match civilOfRd rd with
  | (y, m, d) =>
    (weekdayLongNames.getD (weekdayOfRd rd) "") ++ ", "
      ++ (monthLongNames.getD (m - 1) "") ++ " " ++ pad2 d ++ ", " ++ toString y

/-! ## Regular-expression engine

A small AST covering exactly the constructs used by the Python patterns in
scope: character classes, sequencing, ordered alternation, greedy `?` and
`*`, one capture group, word boundaries and anchors.  Execution is a
fuel-indexed continuation-passing backtracking matcher with Python `re`
semantics. -/

inductive RE where
  | eps  : RE
  | cls  : (Char → Bool) → RE
  | seq  : RE → RE → RE
  | alt  : RE → RE → RE
  | opt  : RE → RE
  | star : RE → RE
  | grp  : RE → RE
  | wb   : RE
  | bos  : RE
  | eos  : RE

/-- Structural size of a pattern, used to budget matcher fuel. -/
def RE.size : RE → Nat
  | .eps => 1
  | .cls _ => 1
  | .seq a b => a.size + b.size + 1
  | .alt a b => a.size + b.size + 1
  | .opt a => a.size + 1
  | .star a => a.size + 1
  | .grp a => a.size + 1
  | .wb => 1
  | .bos => 1
  | .eos => 1

/-- Python `\w` (ASCII approximation: letters, digits, underscore). -/
def isWordChar (c : Char) : Bool :=
  c.isAlphanum || c = '_'

/-- Word boundary between an optional previous and next character. -/
def atBoundary (prev next : Option Char) : Bool :=
  (match prev with | some c => isWordChar c | none => false)
    != (match next with | some c => isWordChar c | none => false)

/-- Matcher state: previous character (for word boundaries), remaining
input, absolute position, and recorded capture-group bounds. -/
structure MSt where
  prev : Option Char
  rest : List Char
  pos  : Nat
  gs   : Option Nat
  ge   : Option Nat

/-- Backtracking matcher.  `mrun fuel r st k` tries to match `r` at `st`
and passes every candidate continuation state to `k` in Python preference
order (ordered alternation, greedy `?`/`*`), returning the first success. -/
def mrun : Nat → RE → MSt → (MSt → Option MSt) → Option MSt
  | 0, _, _, _ => none
  | _ + 1, .eps, st, k => k st
  | _ + 1, .cls p, st, k =>
    match st.rest with
    | [] => none
    | c :: cs =>
      if p c then k { st with prev := some c, rest := cs, pos := st.pos + 1 }
      else none
  | f + 1, .seq a b, st, k => mrun f a st (fun st1 => mrun f b st1 k)
  | f + 1, .alt a b, st, k => (mrun f a st k).orElse (fun _ => mrun f b st k)
  | f + 1, .opt a, st, k => (mrun f a st k).orElse (fun _ => k st)
  | f + 1, .star a, st, k =>
    (mrun f a st (fun st1 =>
        if st.pos < st1.pos then mrun f (.star a) st1 k else none)).orElse
      (fun _ => k st)
  | f + 1, .grp a, st, k =>
    mrun f a { st with gs := some st.pos }
      (fun st1 => k { st1 with ge := some st1.pos })
  | _ + 1, .wb, st, k => if atBoundary st.prev st.rest.head? then k st else none
  | _ + 1, .bos, st, k => if st.pos = 0 then k st else none
  | _ + 1, .eos, st, k => if st.rest = [] then k st else none

/-- Fuel that is always sufficient for `mrun` on this pattern and input
(each equation step either descends into the pattern or consumes a
character). -/
def reFuel (r : RE) (len : Nat) : Nat :=
  (r.size + 2) * (len + 2)

/-- Attempt the pattern at successive start positions, leftmost first
(Python `re.search`).  Returns the capture-group bounds of the first
match. -/
def researchGo (r : RE) (fuel : Nat) (prev : Option Char) :
    List Char → Nat → Option (Nat × Nat)
  | rest, pos =>
    match mrun fuel r ⟨prev, rest, pos, none, none⟩ some with
    | some st =>
      match st.gs, st.ge with
      | some a, some b => some (a, b)
      | _, _ => none
    | none =>
      match rest with
      | [] => none
      | c :: t => researchGo r fuel (some c) t (pos + 1)

/-- Substring of `s` between absolute positions `a` (inclusive) and `b`
(exclusive). -/
def sliceStr (s : String) (a b : Nat) : String :=
  ((s.data.drop a).take (b - a)).asString

/-- Python `pattern.search(s)` returning `group(1)` as a string. -/
def searchCap (r : RE) (s : String) : Option String :=
  (researchGo r (reFuel r s.length) none s.data 0).map
    (fun p => sliceStr s p.1 p.2)

/-! Pattern-building helpers.  Case-insensitive literals compare the
lowercased input character, which is how the `re.I` flag of the source
patterns is embedded. -/

/-- Exact single character. -/
def rch (c : Char) : RE := .cls (fun x => x = c)

/-- Case-insensitive single character (pattern character given lowercase). -/
def ich (c : Char) : RE := .cls (fun x => x.toLower = c)

/-- Sequence a list of patterns. -/
def rcat (l : List RE) : RE := l.foldr .seq .eps

/-- Case-insensitive literal string. -/
def istr (t : String) : RE := rcat (t.data.map ich)

/-- Ordered alternation of a nonempty list (first alternative preferred). -/
def altList : List RE → RE
  | [] => .cls (fun _ => false)
  | [r] => r
  | r :: rs => .alt r (altList rs)

/-- Exactly `n` repetitions. -/
def repN (r : RE) : Nat → RE
  | 0 => .eps
  | n + 1 => .seq r (repN r n)

/-- At most `n` repetitions, greedy (longest first). -/
def upToN (r : RE) : Nat → RE
  | 0 => .eps
  | n + 1 => .opt (.seq r (upToN r n))

/-- `r{n,}`, greedy. -/
def atLeastN (r : RE) (n : Nat) : RE := .seq (repN r n) (.star r)

/-- Python `\d` (ASCII). -/
def rdigit : RE := .cls Char.isDigit

/-- Python `\s` (ASCII whitespace). -/
def rwsp : RE := .cls Char.isWhitespace

/-- `\d{1,2}`. -/
def d12 : RE := .seq rdigit (.opt rdigit)

/-- `\d+`. -/
def dplus : RE := atLeastN rdigit 1

/-- `\s+`. -/
def wsPlus : RE := atLeastN rwsp 1

/-- `[A-Za-z]` — the class `[A-Z]` (or `[a-z]`) under `re.I`. -/
def iletter : RE := .cls Char.isAlpha

/-! ## Slot extraction (src/agent.py)

The regex pattern lists `NAME_PATTERNS`, `DATE_PATTERNS`, `TIME_PATTERNS`,
`PARTY_PATTERNS`, `PHONE_PATTERNS` and the function `extract_booking_info`
of src/agent.py, lines 61-127. -/

/-- `[A-Z][a-z]+` under `re.I`: a letter followed by one or more letters. -/
def capWord : RE := .seq iletter (atLeastN iletter 1)

/-- The weekday alternation `monday|tuesday|...|sunday` (`re.I`). -/
def weekdayAlt : RE :=
  altList [istr "monday", istr "tuesday", istr "wednesday", istr "thursday",
           istr "friday", istr "saturday", istr "sunday"]

/-- NAME_PATTERNS[0]: phrase prefix then one or two capitalised words. -/
def namePat1 : RE :=
  rcat [altList [istr "my name is", istr "i am", istr ("i" ++ apos ++ "m"),
                 istr "this is", istr "call me",
                 rcat [istr "name", .opt (rch (Char.ofNat 39)), .opt (ich 's')]],
        wsPlus,
        .grp (.seq capWord (.opt (.seq wsPlus capWord)))]

/-- NAME_PATTERNS[1]: a bare capitalised token, optionally `for N`. -/
def namePat2 : RE :=
  rcat [.bos, .grp capWord,
        .opt (rcat [wsPlus, istr "for", wsPlus, dplus]), .eos]

/-- DATE_PATTERNS[0]. -/
def datePat1 : RE :=
  rcat [.wb, .grp (altList [istr "today", istr "tomorrow", istr "tonight"]), .wb]

/-- DATE_PATTERNS[1]. -/
def datePat2 : RE := rcat [.wb, .grp weekdayAlt, .wb]

/-- DATE_PATTERNS[2]: `\d{4}-\d{1,2}-\d{1,2}`. -/
def datePat3 : RE :=
  rcat [.wb, .grp (rcat [repN rdigit 4, rch '-', d12, rch '-', d12]), .wb]

/-- DATE_PATTERNS[3]: `\d{1,2}/\d{1,2}(?:/\d{2,4})?`. -/
def datePat4 : RE :=
  rcat [.wb,
        .grp (rcat [d12, rch '/', d12,
                    .opt (.seq (rch '/') (.seq (repN rdigit 2) (upToN rdigit 2)))]),
        .wb]

/-- DATE_PATTERNS[4]: `next\s+<weekday>`. -/
def datePat5 : RE :=
  rcat [.wb, .grp (rcat [istr "next", wsPlus, weekdayAlt]), .wb]

/-- `(?:am|pm)` (`re.I`). -/
def ampm : RE := .alt (istr "am") (istr "pm")

/-- TIME_PATTERNS[0]: `\d{1,2}:\d{2}\s?(?:am|pm)?`. -/
def timePat1 : RE :=
  rcat [.wb, .grp (rcat [d12, rch ':', repN rdigit 2, .opt rwsp, .opt ampm]), .wb]

/-- TIME_PATTERNS[1]: `\d{1,2}\s?(?:am|pm)`. -/
def timePat2 : RE :=
  rcat [.wb, .grp (rcat [d12, .opt rwsp, ampm]), .wb]

/-- TIME_PATTERNS[2]: `at\s+(\d{1,2}(?::\d{2})?\s?(?:am|pm)?)`. -/
def timePat3 : RE :=
  rcat [.wb, istr "at", wsPlus,
        .grp (rcat [d12, .opt (.seq (rch ':') (repN rdigit 2)), .opt rwsp, .opt ampm]),
        .wb]

/-- `(?:people|guests|persons|ppl)`. -/
def partyWords : RE :=
  altList [istr "people", istr "guests", istr "persons", istr "ppl"]

/-- PARTY_PATTERNS[0]: `for\s+(\d+)\s+(?:people|guests|persons|ppl)?`. -/
def partyPat1 : RE :=
  rcat [.wb, istr "for", wsPlus, .grp dplus, wsPlus, .opt partyWords, .wb]

/-- PARTY_PATTERNS[1]: `(\d+)\s+(?:people|guests|persons|ppl)`. -/
def partyPat2 : RE :=
  rcat [.wb, .grp dplus, wsPlus, partyWords, .wb]

/-- PARTY_PATTERNS[2]: `party\s+of\s+(\d+)`. -/
def partyPat3 : RE :=
  rcat [.wb, istr "party", wsPlus, istr "of", wsPlus, .grp dplus, .wb]

/-- PHONE_PATTERNS[0]: `\+?\d[\d\-\s]{7,}\d`. -/
def phonePat1 : RE :=
  rcat [.wb,
        .grp (rcat [.opt (rch '+'), rdigit,
                    atLeastN (.cls (fun c => c.isDigit || c = '-' || c.isWhitespace)) 7,
                    rdigit]),
        .wb]

/-- First pattern in the list with a match anywhere in `s` wins
(per-field loop of `extract_booking_info`). -/
def firstCap : List RE → String → Option String
  | [], _ => none
  | r :: rs, s =>
    match searchCap r s with
    | some v => some v
    | none => firstCap rs s

/-- Python `re.sub(r"^at\s+", "", val, flags=re.I)`: drop one leading
case-insensitive `at` followed by a whitespace run. -/
def stripAtTime (v : String) : String :=
  match v.data with
  | a :: t :: c :: rest =>
    if a.toLower = 'a' && t.toLower = 't' && c.isWhitespace then
      (rest.dropWhile Char.isWhitespace).asString
    else v
  | _ => v

/-- The per-field extraction result of `extract_booking_info`
(a key absent from the Python dict is `none`). -/
structure BookingSlots where
  name : Option String
  date : Option String
  time : Option String
  party_size : Option String
  phone : Option String
deriving DecidableEq, Repr

/-- src/agent.py `extract_booking_info`. -/
def extract_booking_info (s : String) : BookingSlots where
  name := (firstCap [namePat1, namePat2] s).map (fun v => pyTitle (pyStrip v))
  date := (firstCap [datePat1, datePat2, datePat3, datePat4, datePat5] s).map pyStrip
  time := (firstCap [timePat1, timePat2, timePat3] s).map (fun v => stripAtTime (pyStrip v))
  party_size := (firstCap [partyPat1, partyPat2, partyPat3] s).map pyStrip
  phone := (firstCap [phonePat1] s).map pyStrip

/-- The raw captured time value, before the `at`-stripping substitution
(the `val` local of `extract_booking_info`, already `.strip()`-ed). -/
def rawTimeCapture (s : String) : Option String :=
  (firstCap [timePat1, timePat2, timePat3] s).map pyStrip

/-- Field-level merge of `run_agent`:
`state.update({k: v for k, v in updates.items() if v})` — a field present
in the update with a non-empty value overwrites, anything else leaves the
accumulator untouched. -/
def mergeField (old new : Option String) : Option String :=
  match new with
  | some v => if v = "" then old else some v
  | none => old

/-- The per-thread accumulator merge of src/agent.py `run_agent`,
lines 176-183. -/
def mergeSlots (acc upd : BookingSlots) : BookingSlots where
  name := mergeField acc.name upd.name
  date := mergeField acc.date upd.date
  time := mergeField acc.time upd.time
  party_size := mergeField acc.party_size upd.party_size
  phone := mergeField acc.phone upd.phone

/-! ## Natural-language date parsing (src/src/tools/book_table.py, lines 16-126)

The function `parse_natural_date`.  The call to the external
`dateutil.parser.parse` (twice, with the current and next year as
defaults) is abstracted by a `DuOracle` argument; a `none` result models a
raised exception (swallowed by the bare `except`).  Note that the source
rebinds `date_input` to `date_input + " " + current_year` before the
dateutil attempt when the input holds no four-digit `20xx` token, so the
later ISO and `MM/DD` regexes run on the rebound string. -/

/-- The external dateutil parse capability: input string and default year
to rata-die result, `none` when dateutil raises. -/
def DuOracle := String → Nat → Option Nat

/-- Literal relative tokens of `parse_natural_date` (lines 34-41):
an offset in days from today, or `none`. -/
def relCheck (s : String) : Option Nat :=
  if s = "today" then some 0
  else if s = "tomorrow" then some 1
  else if s = "day after tomorrow" then some 2
  else if isSubstr "next week" s then some 7
  else none

/-- The weekday table of the source, insertion order. -/
def weekdayPairs : List (String × Nat) :=
  [("monday", 0), ("tuesday", 1), ("wednesday", 2), ("thursday", 3),
   ("friday", 4), ("saturday", 5), ("sunday", 6)]

/-- Offset for `next <weekday>` (lines 50-54): `days_ahead` with `+= 7`
when not positive. -/
def nextOffset (num w : Nat) : Nat :=
  (if (num : Int) - w ≤ 0 then (num : Int) - w + 7 else (num : Int) - w).toNat

/-- Offset for a bare weekday (lines 55-62): roll past days to next week
and today to a full week ahead. -/
def bareOffset (num w : Nat) : Nat :=
  (if (num : Int) - w < 0 then (num : Int) - w + 7
   else if (num : Int) - w = 0 then 7
   else (num : Int) - w).toNat

/-- The weekday loop of `parse_natural_date` (lines 49-62): first table
entry whose `next <name>` or bare-name substring test fires, with the
matching offset. -/
def weekdayLoop (s : String) (w : Nat) : List (String × Nat) → Option Nat
  | [] => none
  | (nm, num) :: rest =>
    if isSubstr ("next " ++ nm) s then some (nextOffset num w)
    else if isSubstr nm s && !isSubstr "next" s then some (bareOffset num w)
    else weekdayLoop s w rest

/-- The month table of the source, insertion order. -/
def monthPairs : List (String × Nat) :=
  [("january", 1), ("jan", 1), ("february", 2), ("feb", 2), ("march", 3),
   ("mar", 3), ("april", 4), ("apr", 4), ("may", 5), ("june", 6), ("jun", 6),
   ("july", 7), ("jul", 7), ("august", 8), ("aug", 8), ("september", 9),
   ("sep", 9), ("october", 10), ("oct", 10), ("november", 11), ("nov", 11),
   ("december", 12), ("dec", 12)]

/-- `re.search(r"\b(\d{1,2})\b", s)` — the day extractor of the month
branch. -/
def dayScan (s : String) : Option Nat :=
  (searchCap (rcat [.wb, .grp d12, .wb]) s).bind (fun v => digitsVal v.data)

/-- `re.search(r"\b(20\d{2})\b", s)` — the year extractor, also used to
decide whether to append the current year before the dateutil attempt. -/
def yearScan (s : String) : Option Nat :=
  (searchCap (rcat [.wb, .grp (rcat [rch '2', rch '0', rdigit, rdigit]), .wb]) s).bind
    (fun v => digitsVal v.data)

/-- Python `datetime(y, m, d)` constructability. -/
def validYMD (y m d : Nat) : Bool :=
  1 ≤ y && y ≤ 9999 && 1 ≤ m && m ≤ 12 && 1 ≤ d && d ≤ daysInMonth y m

/-- The month-name loop of `parse_natural_date` (lines 73-91): for the
first month name occurring in the input with an extractable day, build the
date (defaulting the year to the current one), roll a past date one year
forward, and skip to the next table entry when a construction raises. -/
def monthLoop (s : String) (today cy : Nat) : List (String × Nat) → Option String
  | [] => none
  | (nm, mn) :: rest =>
    if isSubstr nm s then
      match dayScan s with
      | none => monthLoop s today cy rest
      | some d =>
        let y := (yearScan s).getD cy
        if validYMD y mn d then
          if rdOfCivil y mn d < today then
            if validYMD (y + 1) mn d then some (formatCivil (y + 1) mn d)
            else monthLoop s today cy rest
          else some (formatCivil y mn d)
        else monthLoop s today cy rest
    else monthLoop s today cy rest

/-- The dateutil attempt (lines 94-107): parse with the current year as
default; when the result is past, re-parse with the next year as default;
any raise falls through. -/
def duStage (du : DuOracle) (s2 : String) (cy today : Nat) : Option Nat :=
  match du s2 cy with
  | none => none
  | some rd =>
    if rd < today then
      match du s2 (cy + 1) with
      | none => none
      | some rd2 => some rd2
    else some rd

/-- `^\d{4}-\d{2}-\d{2}$` (line 110). -/
def isIsoShaped (s : String) : Bool :=
  match s.data with
  | [a, b, c, d, h1, e, f, h2, g, i] =>
    a.isDigit && b.isDigit && c.isDigit && d.isDigit && h1 = '-'
      && e.isDigit && f.isDigit && h2 = '-' && g.isDigit && i.isDigit
  | _ => false

/-- `^(\d{1,2})/(\d{1,2})(?:/(\d{4}))?$` (line 114), as month, day and
optional year. -/
def mmddScan (s : String) : Option (Nat × Nat × Option Nat) :=
  match splitOnChar '/' s with
  | [ms, ds] =>
    if 1 ≤ ms.length && ms.length ≤ 2 && 1 ≤ ds.length && ds.length ≤ 2 then
      match digitsVal ms.data, digitsVal ds.data with
      | some m, some d => some (m, d, none)
      | _, _ => none
    else none
  | [ms, ds, ys] =>
    if 1 ≤ ms.length && ms.length ≤ 2 && 1 ≤ ds.length && ds.length ≤ 2
        && ys.length = 4 then
      match digitsVal ms.data, digitsVal ds.data, digitsVal ys.data with
      | some m, some d, some y => some (m, d, some y)
      | _, _, _ => none
    else none
  | _ => none

/-- The `ValueError` message of the final `raise` (line 126); `s2` is the
possibly year-appended rebinding of `date_input`. -/
def unparsableMsg (s2 : String) : String :=
  "Unable to parse date: " ++ apos ++ s2 ++ apos ++ ". Please try formats like "
    ++ apos ++ "tomorrow" ++ apos ++ ", " ++ apos ++ "next Friday" ++ apos ++ ", "
    ++ apos ++ "August 15" ++ apos ++ ", or " ++ apos ++ "YYYY-MM-DD" ++ apos ++ "."

/-- Lines 94-126 of `parse_natural_date` on the (possibly year-appended)
rebound `date_input`: the dateutil attempt, the ISO passthrough, and the
`MM/DD` branch.  The `MM/DD` branch keeps the source bug: after
`year = int(year) if year else current_year` the roll-forward guard
`parsed_date < today and not year` tests the rebound integer, so it can
only fire for a literal year 0. -/
def duTail (du : DuOracle) (s2 : String) (cy today : Nat) :
    Except String String :=
  match duStage du s2 cy today with
  | some rd => .ok (formatRD rd)
  | none =>
  if isIsoShaped s2 then .ok s2
  else
    match mmddScan s2 with
    | some (mo, d, yOpt) =>
      let y := yOpt.getD cy
      if validYMD y mo d then
        if rdOfCivil y mo d < today && y = 0 then
          if validYMD (y + 1) mo d then .ok (formatCivil (y + 1) mo d)
          else .error (unparsableMsg s2)
        else .ok (formatCivil y mo d)
      else .error (unparsableMsg s2)
    | none => .error (unparsableMsg s2)

/-- src/src/tools/book_table.py `parse_natural_date` (also duplicated
verbatim in modify_reservation.py and check_availability.py).  `today` is
the rata-die value of `datetime.now().date()`; a thrown `ValueError` is the
`.error` case. -/
def parse_natural_date (du : DuOracle) (today : Nat) (input : String) :
    Except String String :=
  let s := pyLower (pyStrip input)
  let cy := (civilOfRd today).1
  match relCheck s with
  | some off => .ok (formatRD (today + off))
  | none =>
  match weekdayLoop s (weekdayOfRd today) weekdayPairs with
  | some off => .ok (formatRD (today + off))
  | none =>
  match monthLoop s today cy monthPairs with
  | some r => .ok r
  | none =>
  duTail du (if (yearScan s).isSome then s else s ++ " " ++ toString cy) cy today

/-! ## Store model and availability (src/src/tools/book_table.py) -/

/-- A row of the `bookings` table. -/
structure Row where
  id : Int
  name : String
  date : String
  time : String
  guests : Int
  phone : Option String := none
deriving DecidableEq, Repr

/-- The supabase client boundary: the rows of `bookings`, whether reads or
writes currently raise (with which exception text), and the id the next
insert would be assigned. -/
structure Store where
  rows : List Row
  selectFails : Bool
  writeFails : Bool
  errMsg : String
  nextId : Int
deriving Repr

/-- `supabase.table("bookings").select("*").eq("date", d).eq("time", t).execute()`. -/
def selectRows (st : Store) (d t : String) : Except String (List Row) :=
  if st.selectFails then .error st.errMsg
  else .ok (st.rows.filter (fun r => r.date = d && r.time = t))

/-- `supabase.table("bookings").select("*").eq("id", i).execute()`. -/
def selectById (st : Store) (i : Int) : Except String (List Row) :=
  if st.selectFails then .error st.errMsg
  else .ok (st.rows.filter (fun r => r.id = i))

/-- Deduplication by reservation id, keeping the first occurrence
(lines 150-156). -/
def dedupGo (seen : List Int) : List Row → List Row
  | [] => []
  | r :: rs =>
    if r.id ∈ seen then dedupGo seen rs
    else r :: dedupGo (r.id :: seen) rs

/-- Remove duplicate rows by id. -/
def dedupById (l : List Row) : List Row := dedupGo [] l

/-- `sum(reservation.get("guests", 0) for reservation in ...)`. -/
def sumGuests (l : List Row) : Int :=
  l.foldl (fun a r => a + r.guests) 0

/-- The id-deduplicated rows matching `(date, time)` under both on-disk
time representations `HH:MM` and `HH:MM:SS` (lines 141-156, with a
working store). -/
def uniqAt (rows : List Row) (date t : String) : List Row :=
  dedupById
    ((rows.filter (fun r => r.date = date && r.time = t))
      ++ (rows.filter (fun r => r.date = date && r.time = t ++ ":00")))

/-- The result dict of `check_availability`. -/
structure AvailResult where
  available : Bool
  message : String
  suggestions : List String
deriving DecidableEq, Repr

/-- `f"{hour:02d}:00"`. -/
def slotStr (h : Nat) : String := pad2 h ++ ":00"

/-- The hourly slots `range(10, 23)` of `get_alternative_times`. -/
def hourSlots : List Nat := List.range' 10 13

/-- One suggestion line of `get_alternative_times` (line 254). -/
def altLine (h : Nat) (party : Int) : String :=
  "• " ++ slotStr h ++ " - Available for " ++ toString party ++ " people"

/-- The fallback suggestion returned when anything raises inside
`get_alternative_times` (line 262). -/
def fallbackLine : String :=
  "• Please call us at (555) 123-4567 for availability"

/-- Whether an alternative slot can take the party (line 251; thresholds
hardcoded to 50 and 10 in the source). -/
def slotOK (rows : List Row) (date : String) (h : Nat) (party : Int) : Bool :=
  let u := uniqAt rows date (slotStr h)
  sumGuests u + party ≤ 50 && u.length < 10

/-- The sorted, truncated `(hour_diff, text)` pair list of
`get_alternative_times` (lines 219-258): candidate slots are filtered
(requested slot excluded, both thresholds re-checked), keyed by absolute
hour distance, stably sorted ascending and truncated to three. -/
def altPairs (rows : List Row) (date t : String) (party : Int) (h : Int) :
    List (Nat × String) :=
  (((hourSlots.filter
        (fun slot => decide (slotStr slot ≠ t) && slotOK rows date slot party)).map
      (fun (slot : Nat) => (((slot : Int) - h).natAbs, altLine slot party))).insertionSort
    (fun a b => a.1 ≤ b.1)).take 3

/-- src/src/tools/book_table.py `get_alternative_times` (lines 206-262).
`int(requested_time.split(":")[0])` raising, or any slot query raising
(all selects fail together in this model), lands in the `except` that
returns the fallback line. -/
def get_alternative_times (st : Store) (date t : String) (party : Int) :
    List String :=
  match parseIntPy ((splitOnChar ':' t).headD "") with
  | none => [fallbackLine]
  | some h =>
    if st.selectFails then [fallbackLine]
    else (altPairs st.rows date t party h).map Prod.snd

/-- Capacity-rejection message (lines 173-176). -/
def capacityMsg (party : Int) (t date : String) (total : Int)
    (sugg : List String) : String :=
  "❌ Sorry, we don" ++ apos ++ "t have capacity for " ++ toString party
    ++ " people at " ++ t ++ " on " ++ date ++ ". We currently have "
    ++ toString total
    ++ " guests booked for that time slot. Our maximum capacity per time slot is 50 guests.\n\n"
    ++ "📅 Available alternatives:\n" ++ joinWith "\n" sugg

/-- Tables-rejection message (lines 185-186). -/
def tablesMsg (t date : String) (sugg : List String) : String :=
  "❌ Sorry, all 10 tables are booked for " ++ t ++ " on " ++ date
    ++ ". 📅 Available alternatives:\n" ++ joinWith "\n" sugg

/-- Slot-available message (line 193). -/
def availableMsg (party : Int) (t date : String) : String :=
  "✅ Table available for " ++ toString party ++ " people at " ++ t
    ++ " on " ++ date ++ "!"

/-- The fail-open result of the outer `except` (lines 197-204). -/
def failOpenResult : AvailResult :=
  ⟨true, "⚠️ Unable to verify availability, but proceeding with booking.", []⟩

/-- src/src/tools/book_table.py `check_availability` (lines 128-204), with
`MAX_TABLES` and `MAX_CAPACITY_PER_TIME_SLOT` at their documented defaults
10 and 50.  Capacity checks run only inside `if unique_reservations:`; a
raising store query reaches the fail-open handler. -/
def check_availability (st : Store) (date t : String) (party : Int) :
    AvailResult :=
  match selectRows st date t with
  | .error _ => failOpenResult
  | .ok r1 =>
    match selectRows st date (t ++ ":00") with
    | .error _ => failOpenResult
    | .ok r2 =>
      let uniq := dedupById (r1 ++ r2)
      if uniq.isEmpty then ⟨true, availableMsg party t date, []⟩
      else
        let total := sumGuests uniq
        if 50 < total + party then
          let sugg := get_alternative_times st date t party
          ⟨false, capacityMsg party t date total sugg, sugg⟩
        else if 10 ≤ uniq.length then
          let sugg := get_alternative_times st date t party
          ⟨false, tablesMsg t date sugg, sugg⟩
        else ⟨true, availableMsg party t date, []⟩

/-! ## Time validation and booking (src/src/tools/book_table.py, lines 264-367) -/

/-- Python `datetime.strptime(time, "%H:%M")`: one or two digits with hour
at most 23, a colon, one or two digits with minute at most 59, nothing
else. -/
def parseHM (t : String) : Option (Nat × Nat) :=
  match splitOnChar ':' t with
  | [hs, ms] =>
    match digitsVal hs.data, digitsVal ms.data with
    | some h, some m =>
      if hs.length ≤ 2 && ms.length ≤ 2 && h ≤ 23 && m ≤ 59 then some (h, m)
      else none
    | _, _ => none
  | _ => none

/-- Python `datetime.strptime(s, "%Y-%m-%d")` to a rata-die day, with the
exception text of a raised `ValueError`. -/
def strptimeDate (s : String) : Except String Nat :=
  let mismatch : Except String Nat :=
    .error ("time data " ++ apos ++ s ++ apos ++ " does not match format "
      ++ apos ++ "%Y-%m-%d" ++ apos)
  match splitOnChar '-' s with
  | [ys, ms, ds] =>
    match digitsVal ys.data, digitsVal ms.data, digitsVal ds.data with
    | some y, some m, some d =>
      if ys.length = 4 && ms.length ≤ 2 && ds.length ≤ 2
          && 1 ≤ m && m ≤ 12 && 1 ≤ d && d ≤ 31 then
        if y = 0 then .error ("year 0 is out of range")
        else if daysInMonth y m < d then .error "day is out of range for month"
        else .ok (rdOfCivil y m d)
      else mismatch
    | _, _, _ => mismatch
  | _ => mismatch

/-- The instrumented outcome of `book_table`: the returned string plus
whether the availability check and the insert were reached (the store
interactions the claims talk about). -/
structure BookResult where
  message : String
  availChecked : Bool
  insertAttempted : Bool
deriving DecidableEq, Repr

/-- The `except Exception` handler of `book_table` (lines 356-367). -/
def bookExcHandler (e : String) : String :=
  if isSubstr "duplicate" (pyLower e) then
    "Error: A reservation already exists for this date and time. Please choose a different time slot."
  else if isSubstr "connection" (pyLower e) then
    "Error: Unable to connect to the database. Please try again later."
  else
    "Error: An unexpected error occurred while booking your table. Details: " ++ e

/-- The success confirmation of `book_table` (lines 331-352). -/
def bookConfirmMsg (name : String) (rdate : Nat) (t : String) (party : Int)
    (phone : Option String) (rid : Int) : String :=
  "✅ Table successfully booked!\n" ++ "Reservation Details:\n"
    ++ "• Name: " ++ name ++ "\n" ++ "• Date: " ++ formatLong rdate ++ "\n"
    ++ "• Time: " ++ t ++ "\n" ++ "• Party Size: " ++ toString party ++ " people\n"
    ++ (match phone with
        | some p => if pyStrip p = "" then "" else "• Phone: " ++ pyStrip p ++ "\n"
        | none => "")
    ++ "• Reservation ID: " ++ toString rid ++ "\n" ++ "• Status: Confirmed\n\n"
    ++ "Please arrive 15 minutes before your reservation time. "
    ++ "If you need to cancel or modify your reservation, please contact us with your reservation ID."

/-- src/src/tools/book_table.py `book_table` (lines 264-367): validations
in source order (name, party size, date parse and past check, time format,
opening hours), then the availability check, then the insert.  A raising
insert is routed through the `except Exception` handler. -/
def book_table (st : Store) (name date t : String) (party : Int)
    (phone : Option String) (today : Nat) (du : DuOracle) : BookResult :=
  if pyStrip name = "" then
    ⟨"Error: Name is required and cannot be empty.", false, false⟩
  else if party ≤ 0 then
    ⟨"Error: Party size must be a positive number.", false, false⟩
  else if 20 < party then
    ⟨"Error: Party size cannot exceed 20 people. Please contact us directly for larger groups.",
      false, false⟩
  else
    match parse_natural_date du today date with
    | .error e => ⟨"Error: " ++ e, false, false⟩
    | .ok pd =>
      match strptimeDate pd with
      | .error e => ⟨"Error: " ++ e, false, false⟩
      | .ok rdate =>
        if rdate < today then
          ⟨"Error: Cannot book a table for a past date.", false, false⟩
        else
          match parseHM t with
          | none =>
            ⟨"Error: Invalid time format. Please use HH:MM format (24-hour).",
              false, false⟩
          | some (h, _) =>
            if h < 10 || 23 ≤ h then
              ⟨"Error: Restaurant is open from 10:00 AM to 11:00 PM. Please choose a time within these hours.",
                false, false⟩
            else
              let av := check_availability st pd t party
              if !av.available then ⟨av.message, true, false⟩
              else if st.writeFails then ⟨bookExcHandler st.errMsg, true, true⟩
              else ⟨bookConfirmMsg name rdate t party phone st.nextId, true, true⟩

/-! ## Modifying a reservation (src/src/tools/modify_reservation.py, lines 112-236)

The source contains a duplicated date-validation block: lines 151-164
parse the new date as natural language but then unconditionally append a
Name diff using `name.strip()` (raising `AttributeError` when no name was
supplied), and lines 167-177 re-validate the same `date` argument with a
strict `datetime.strptime(date, "%Y-%m-%d")`.  Both blocks are embedded
as written. -/

/-- `update_data` of `modify_reservation`. -/
structure UpdateData where
  uname : Option String := none
  udate : Option String := none
  utime : Option String := none
  uguests : Option Int := none
deriving DecidableEq, Repr

/-- Whether `update_data` is the empty dict. -/
def UpdateData.isEmpty (u : UpdateData) : Bool :=
  u.uname.isNone && u.udate.isNone && u.utime.isNone && u.uguests.isNone

/-- Accumulator state threaded through the validation branches:
`update_data` plus `changes_made`. -/
structure ModCtx where
  upd : UpdateData
  changes : List String
deriving Repr

/-- A branch outcome: a raised exception (`Except.error`), an early
user-facing return (`.inl`), or fall-through to the next branch
(`.inr`). -/
abbrev ModStep := Except String (String ⊕ ModCtx)

/-- The Python `AttributeError` text of `None.strip()`. -/
def noneStripErr : String :=
  apos ++ "NoneType" ++ apos ++ " object has no attribute " ++ apos ++ "strip" ++ apos

/-- Name branch (lines 144-148). -/
def modStepName (name : Option String) (cur : Row) (ctx : ModCtx) : ModStep :=
  match name with
  | none => .ok (.inr ctx)
  | some n =>
    if pyStrip n = "" then .ok (.inl "Error: Name cannot be empty.")
    else .ok (.inr ⟨{ ctx.upd with uname := some (pyStrip n) },
      ctx.changes ++ ["Name: " ++ cur.name ++ " → " ++ pyStrip n]⟩)

/-- First date branch (lines 151-164): natural-language parse, past
check, diff line with long-format dates — then the stray
`changes_made.append(f"Name: ... {name.strip()}")`, which raises
`AttributeError` when `name` is `None`. -/
def modStepDate1 (name date : Option String) (cur : Row) (today : Nat)
    (du : DuOracle) (ctx : ModCtx) : ModStep :=
  match date with
  | none => .ok (.inr ctx)
  | some ds =>
    match parse_natural_date du today ds with
    | .error e => .ok (.inl ("Error: " ++ e))
    | .ok pd =>
      match strptimeDate pd with
      | .error e => .ok (.inl ("Error: " ++ e))
      | .ok rdate =>
        if rdate < today then
          .ok (.inl "Error: Cannot modify reservation to a past date.")
        else
          match strptimeDate cur.date with
          | .error e => .ok (.inl ("Error: " ++ e))
          | .ok crd =>
            let ctx1 : ModCtx := ⟨{ ctx.upd with udate := some pd },
              ctx.changes ++ ["Date: " ++ formatLong crd ++ " → " ++ formatLong rdate]⟩
            match name with
            | none => .error noneStripErr
            | some n =>
              .ok (.inr ⟨ctx1.upd,
                ctx1.changes ++ ["Name: " ++ cur.name ++ " → " ++ pyStrip n]⟩)

/-- Second, duplicated date branch (lines 167-177): strict
`YYYY-MM-DD` re-validation of the same argument. -/
def modStepDate2 (date : Option String) (cur : Row) (today : Nat)
    (ctx : ModCtx) : ModStep :=
  match date with
  | none => .ok (.inr ctx)
  | some ds =>
    match strptimeDate ds with
    | .error _ =>
      .ok (.inl "Error: Invalid date format. Please use YYYY-MM-DD format.")
    | .ok rdate =>
      if rdate < today then
        .ok (.inl "Error: Cannot modify reservation to a past date.")
      else
        .ok (.inr ⟨{ ctx.upd with udate := some ds },
          ctx.changes ++ ["Date: " ++ cur.date ++ " → " ++ ds]⟩)

/-- Time branch (lines 180-190). -/
def modStepTime (time : Option String) (cur : Row) (ctx : ModCtx) : ModStep :=
  match time with
  | none => .ok (.inr ctx)
  | some ts =>
    match parseHM ts with
    | none =>
      .ok (.inl "Error: Invalid time format. Please use HH:MM format (24-hour).")
    | some (h, _) =>
      if h < 10 || 23 ≤ h then
        .ok (.inl "Error: Restaurant is open from 10:00 AM to 11:00 PM. Please choose a time within these hours.")
      else
        .ok (.inr ⟨{ ctx.upd with utime := some ts },
          ctx.changes ++ ["Time: " ++ cur.time ++ " → " ++ ts]⟩)

/-- Party-size branch (lines 193-199). -/
def modStepParty (party : Option Int) (cur : Row) (ctx : ModCtx) : ModStep :=
  match party with
  | none => .ok (.inr ctx)
  | some p =>
    if p ≤ 0 then .ok (.inl "Error: Party size must be a positive number.")
    else if 20 < p then
      .ok (.inl "Error: Party size cannot exceed 20 people. Please contact us directly for larger groups.")
    else
      .ok (.inr ⟨{ ctx.upd with uguests := some p },
        ctx.changes ++ ["Party Size: " ++ toString cur.guests ++ " → "
          ++ toString p ++ " people"]⟩)

/-- The `except Exception` handler of `modify_reservation`
(lines 225-236). -/
def modExcHandler (e : String) : String :=
  if isSubstr "duplicate" (pyLower e) then
    "Error: A reservation already exists for the new date and time. Please choose a different time slot."
  else if isSubstr "connection" (pyLower e) then
    "Error: Unable to connect to the database. Please try again later."
  else
    "Error: An unexpected error occurred while modifying your reservation. Details: " ++ e

/-- Success message of `modify_reservation` (lines 212-221). -/
def modSuccessMsg (rid : Int) (cur : Row) (u : UpdateData)
    (changes : List String) : String :=
  "✅ Reservation successfully modified!\n\n" ++ "Updated Reservation Details:\n"
    ++ "• Reservation ID: " ++ toString rid ++ "\n"
    ++ "• Name: " ++ u.uname.getD cur.name ++ "\n"
    ++ "• Date: " ++ u.udate.getD cur.date ++ "\n"
    ++ "• Time: " ++ u.utime.getD cur.time ++ "\n"
    ++ "• Party Size: " ++ toString (u.uguests.getD cur.guests) ++ " people\n\n"
    ++ "Changes Made:\n"
    ++ joinWith "\n" (changes.map (fun c => "• " ++ c)) ++ "\n\n"
    ++ "Please arrive 15 minutes before your reservation time. "
    ++ "If you need to make further changes, please contact us with your reservation ID."

/-- Chains the branches after the row lookup. -/
def modifyAfterFetch (st : Store) (rid : Int) (name date time : Option String)
    (party : Option Int) (today : Nat) (du : DuOracle) (cur : Row) : String :=
  let ctx0 : ModCtx := ⟨{}, []⟩
  match modStepName name cur ctx0 with
  | .error e => modExcHandler e
  | .ok (.inl msg) => msg
  | .ok (.inr c1) =>
    match modStepDate1 name date cur today du c1 with
    | .error e => modExcHandler e
    | .ok (.inl msg) => msg
    | .ok (.inr c2) =>
      match modStepDate2 date cur today c2 with
      | .error e => modExcHandler e
      | .ok (.inl msg) => msg
      | .ok (.inr c3) =>
        match modStepTime time cur c3 with
        | .error e => modExcHandler e
        | .ok (.inl msg) => msg
        | .ok (.inr c4) =>
          match modStepParty party cur c4 with
          | .error e => modExcHandler e
          | .ok (.inl msg) => msg
          | .ok (.inr c5) =>
            if c5.upd.isEmpty then
              "Error: No changes provided. Please specify what you" ++ apos
                ++ "d like to modify (name, date, time, or party_size)."
            else if st.writeFails then modExcHandler st.errMsg
            else modSuccessMsg rid cur c5.upd c5.changes

/-- src/src/tools/modify_reservation.py `modify_reservation`
(lines 112-236), returning the user-facing string. -/
def modify_reservation (st : Store) (rid : Int) (name date time : Option String)
    (party : Option Int) (today : Nat) (du : DuOracle) : String :=
  if rid ≤ 0 then "Error: Valid reservation ID is required."
  else
    match selectById st rid with
    | .error e => modExcHandler e
    | .ok [] => "Error: No reservation found with ID " ++ toString rid ++ "."
    | .ok (cur :: _) =>
      modifyAfterFetch st rid name date time party today du cur

deriving instance DecidableEq for Except

/-! ## Concrete fixtures used by the evaluation theorems -/

/-- A dateutil oracle on which every parse raises (also the behaviour of
the real library on every concrete string fed to it in the theorems
below, save where a hypothesis states otherwise). -/
def du0 : DuOracle := fun _ _ => none

/-- A reference date for the concrete evaluations: 2026-10-12, a
Monday. -/
def today0 : Nat := rdOfCivil 2026 10 12

/-- A healthy store holding the given rows. -/
def okStore (rows : List Row) : Store := ⟨rows, false, false, "", 7⟩

/-- A store whose reads raise (availability outage) but whose writes
succeed. -/
def brokenReadStore (rows : List Row) : Store := ⟨rows, true, false, "boom", 7⟩

/-- Fixture for C1: one existing reservation with id 1. -/
def st1 : Store := okStore [⟨1, "John", "2026-10-20", "18:00", 2, none⟩]

/-! ## C1 -/

/-- C1 (code_bug): for an existing reservation id, a `modify_reservation`
call that supplies only a new date does not succeed with a diff summary:
the stray `name.strip()` appended inside the date branch raises
`AttributeError`, which the outer handler converts into the generic
unexpected-error string.  Even with a name supplied, a natural-language
date such as `tomorrow` is rejected by the duplicated strict
`YYYY-MM-DD` re-validation block; only the no-fields case behaves as the
claim says. -/
theorem C1_modify_date_only_crashes :
    modify_reservation st1 1 none (some "tomorrow") none none today0 du0
      = "Error: An unexpected error occurred while modifying your reservation. Details: "
          ++ noneStripErr
    ∧ modify_reservation st1 1 (some "Dana") (some "tomorrow") none none today0 du0
      = "Error: Invalid date format. Please use YYYY-MM-DD format."
    ∧ modify_reservation st1 1 none none none none today0 du0
      = "Error: No changes provided. Please specify what you" ++ apos
          ++ "d like to modify (name, date, time, or party_size)." := by
  refine ⟨?_, ?_, ?_⟩ <;> decide

/-! ## C7 -/

/-- C7 (confirmed): on the utterance `my name is Dan, party of 4 tomorrow
at 7pm` the extractor returns exactly name Dan, party_size 4, date
tomorrow, time 7pm and no phone; and in general the published time value
is the raw captured time with any leading case-insensitive `at` prefix
stripped. -/
theorem C7_extract_example :
    extract_booking_info "my name is Dan, party of 4 tomorrow at 7pm"
      = ⟨some "Dan", some "tomorrow", some "7pm", some "4", none⟩
    ∧ ∀ s, (extract_booking_info s).time = (rawTimeCapture s).map stripAtTime := by
  refine ⟨by decide, fun s => ?_⟩
  show (firstCap [timePat1, timePat2, timePat3] s).map (fun v => stripAtTime (pyStrip v))
      = ((firstCap [timePat1, timePat2, timePat3] s).map pyStrip).map stripAtTime
  cases firstCap [timePat1, timePat2, timePat3] s <;> rfl

/-! ## C8 -/

/-- C8 (confirmed): the per-thread merge overwrites exactly the fields
present in the new extraction with a non-empty value, leaves absent fields
untouched, and is idempotent under repeated application of the same
slots. -/
theorem C8_merge_semantics (acc upd : BookingSlots) :
    ((∀ v, v ≠ "" → upd.name = some v → (mergeSlots acc upd).name = some v)
      ∧ (upd.name = none → (mergeSlots acc upd).name = acc.name))
    ∧ ((∀ v, v ≠ "" → upd.date = some v → (mergeSlots acc upd).date = some v)
      ∧ (upd.date = none → (mergeSlots acc upd).date = acc.date))
    ∧ ((∀ v, v ≠ "" → upd.time = some v → (mergeSlots acc upd).time = some v)
      ∧ (upd.time = none → (mergeSlots acc upd).time = acc.time))
    ∧ ((∀ v, v ≠ "" → upd.party_size = some v →
          (mergeSlots acc upd).party_size = some v)
      ∧ (upd.party_size = none → (mergeSlots acc upd).party_size = acc.party_size))
    ∧ ((∀ v, v ≠ "" → upd.phone = some v → (mergeSlots acc upd).phone = some v)
      ∧ (upd.phone = none → (mergeSlots acc upd).phone = acc.phone))
    ∧ mergeSlots (mergeSlots acc upd) upd = mergeSlots acc upd := by
  have hfield : ∀ o n : Option String,
      ((∀ v, v ≠ "" → n = some v → mergeField o n = some v)
        ∧ (n = none → mergeField o n = o))
      ∧ mergeField (mergeField o n) n = mergeField o n := by
    intro o n
    rcases n with _ | v
    · refine ⟨⟨?_, ?_⟩, ?_⟩
      · intro w _ h; cases h
      · intro _; rfl
      · rfl
    · refine ⟨⟨?_, ?_⟩, ?_⟩
      · intro w hw h; cases h; simp [mergeField, hw]
      · intro h; cases h
      · by_cases hv : v = "" <;> simp [mergeField, hv]

  refine ⟨(hfield acc.name upd.name).1, (hfield acc.date upd.date).1,
    (hfield acc.time upd.time).1, (hfield acc.party_size upd.party_size).1,
    (hfield acc.phone upd.phone).1, ?_⟩
  simp only [mergeSlots]
  rw [(hfield acc.name upd.name).2, (hfield acc.date upd.date).2,
    (hfield acc.time upd.time).2, (hfield acc.party_size upd.party_size).2,
    (hfield acc.phone upd.phone).2]

/-- Witness for C8 at the concrete accumulator and update of the spec
example (merging the same date twice equals merging once, and a supplied
non-empty date overwrites). -/
theorem C8_merge_semantics_witness :
    (mergeSlots (⟨some "Dan", none, none, none, none⟩ : BookingSlots)
        ⟨none, some "tomorrow", none, none, none⟩).date = some "tomorrow"
    ∧ mergeSlots (mergeSlots (⟨some "Dan", none, none, none, none⟩ : BookingSlots)
          ⟨none, some "tomorrow", none, none, none⟩)
        ⟨none, some "tomorrow", none, none, none⟩
      = mergeSlots (⟨some "Dan", none, none, none, none⟩ : BookingSlots)
          ⟨none, some "tomorrow", none, none, none⟩ :=
  ⟨(C8_merge_semantics ⟨some "Dan", none, none, none, none⟩
      ⟨none, some "tomorrow", none, none, none⟩).2.1.1 "tomorrow" (by decide) rfl,
   (C8_merge_semantics ⟨some "Dan", none, none, none, none⟩
      ⟨none, some "tomorrow", none, none, none⟩).2.2.2.2.2⟩

/-! ## C6 -/

/-- The bare weekday names recognised by the parser. -/
def weekdayNames : List String := weekdayPairs.map Prod.fst

/-- Weekday number (Monday = 0) of a weekday name. -/
def weekdayIndex (w : String) : Nat :=
  ((weekdayPairs.filter (fun p => p.1 = w)).headD ("", 0)).2

/-- Arithmetic of the bare-weekday branch: the offset is in `[1, 7]`, is
`7` exactly on the reference weekday itself, lands on the requested
weekday, and no earlier positive offset does. -/
theorem bareOffset_spec (num R : Nat) (hnum : num < 7) :
    1 ≤ bareOffset num (weekdayOfRd R) ∧ bareOffset num (weekdayOfRd R) ≤ 7
    ∧ (bareOffset num (weekdayOfRd R) = 7 ↔ weekdayOfRd R = num)
    ∧ weekdayOfRd (R + bareOffset num (weekdayOfRd R)) = num
    ∧ ∀ j, 1 ≤ j → j < bareOffset num (weekdayOfRd R) →
        weekdayOfRd (R + j) ≠ num := by
  refine ⟨?_, ?_, ?_, ?_, fun j hj1 hj2 => ?_⟩ <;>
    · unfold bareOffset weekdayOfRd at *
      split_ifs at * <;> omega

/-- C6 (confirmed): for every weekday name `W` and reference day `R`, the
parser maps the bare name to `R + k` where `k ∈ [1, 7]`, `k = 7` exactly
when `W` is the weekday of `R`, `R + k` falls on weekday `W`, and no
earlier future day does — so the result is strictly in the future and
never `R` itself. -/
theorem C6_bare_weekday (W : String) (hW : W ∈ weekdayNames) (R : Nat)
    (du : DuOracle) :
    ∃ k, parse_natural_date du R W = .ok (formatRD (R + k))
      ∧ 1 ≤ k ∧ k ≤ 7
      ∧ (k = 7 ↔ weekdayOfRd R = weekdayIndex W)
      ∧ weekdayOfRd (R + k) = weekdayIndex W
      ∧ ∀ j, 1 ≤ j → j < k → weekdayOfRd (R + j) ≠ weekdayIndex W := by
  fin_cases hW
  · exact ⟨bareOffset 0 (weekdayOfRd R), rfl, bareOffset_spec 0 R (by omega)⟩
  · exact ⟨bareOffset 1 (weekdayOfRd R), rfl, bareOffset_spec 1 R (by omega)⟩
  · exact ⟨bareOffset 2 (weekdayOfRd R), rfl, bareOffset_spec 2 R (by omega)⟩
  · exact ⟨bareOffset 3 (weekdayOfRd R), rfl, bareOffset_spec 3 R (by omega)⟩
  · exact ⟨bareOffset 4 (weekdayOfRd R), rfl, bareOffset_spec 4 R (by omega)⟩
  · exact ⟨bareOffset 5 (weekdayOfRd R), rfl, bareOffset_spec 5 R (by omega)⟩
  · exact ⟨bareOffset 6 (weekdayOfRd R), rfl, bareOffset_spec 6 R (by omega)⟩

/-- Witness for C6: `friday` from Monday 2026-10-12 under the everywhere-
failing dateutil oracle. -/
theorem C6_bare_weekday_witness :
    ∃ k, parse_natural_date du0 today0 "friday" = .ok (formatRD (today0 + k))
      ∧ 1 ≤ k ∧ k ≤ 7
      ∧ (k = 7 ↔ weekdayOfRd today0 = weekdayIndex "friday")
      ∧ weekdayOfRd (today0 + k) = weekdayIndex "friday"
      ∧ ∀ j, 1 ≤ j → j < k → weekdayOfRd (today0 + j) ≠ weekdayIndex "friday" :=
  C6_bare_weekday "friday" (by decide) today0 du0

/-! ## C3 -/

/-- C3 (code_bug): with today = 2026-10-12 and any dateutil behaviour
consistent with the real library on the two strings involved,
`parse_natural_date` returns the past date `2020-01-01` unchanged, and on
`01/02` it never returns the rolled-forward `2027-01-02` that the spec
describes: the input is first rebound to `01/02 2026`, after which the
result is either that past January date (when dateutil parses it) or an
`UnparsableDate` error (when dateutil raises) — the roll-forward guard of
the `MM/DD` branch, `parsed_date < today and not year`, can never fire
because `year` has just been rebound to a non-zero integer. -/
theorem C3_past_dates_returned (du : DuOracle)
    (h1 : ∀ y, du "2020-01-01" y = none ∨ du "2020-01-01" y = some (rdOfCivil 2020 1 1))
    (h2 : ∀ y, du "01/02 2026" y = none ∨ du "01/02 2026" y = some (rdOfCivil 2026 1 2)) :
    parse_natural_date du today0 "2020-01-01" = .ok "2020-01-01"
    ∧ rdOfCivil 2020 1 1 < today0
    ∧ (parse_natural_date du today0 "01/02" = .error (unparsableMsg "01/02 2026")
        ∨ parse_natural_date du today0 "01/02" = .ok "2026-01-02")
    ∧ rdOfCivil 2026 1 2 < today0
    ∧ parse_natural_date du today0 "01/02" ≠ .ok "2027-01-02" := by
  have e1 : parse_natural_date du today0 "2020-01-01"
      = duTail du "2020-01-01" 2026 today0 := rfl
  have e2 : parse_natural_date du today0 "01/02"
      = duTail du "01/02 2026" 2026 today0 := rfl
  have r1 : duTail du "2020-01-01" 2026 today0 = .ok "2020-01-01" := by
    rcases h1 2026 with h | h <;>
      · simp only [duTail, duStage, h]
        first
        | decide
        | (rcases h1 2027 with h27 | h27 <;> simp only [h27] <;> decide)
  have r2 : duTail du "01/02 2026" 2026 today0
        = .error (unparsableMsg "01/02 2026")
      ∨ duTail du "01/02 2026" 2026 today0 = .ok "2026-01-02" := by
    rcases h2 2026 with h | h
    · left
      simp only [duTail, duStage, h]
      decide
    · simp only [duTail, duStage, h]
      rcases h2 2027 with h27 | h27 <;> simp only [h27]
      · left; decide
      · right; decide
  rw [e1, e2]
  refine ⟨r1, by decide, r2, by decide, ?_⟩
  rcases r2 with h | h <;> rw [h] <;> decide

/-- Witness for C3 at the everywhere-raising dateutil oracle. -/
theorem C3_past_dates_returned_witness :
    parse_natural_date du0 today0 "2020-01-01" = .ok "2020-01-01"
    ∧ rdOfCivil 2020 1 1 < today0
    ∧ (parse_natural_date du0 today0 "01/02" = .error (unparsableMsg "01/02 2026")
        ∨ parse_natural_date du0 today0 "01/02" = .ok "2026-01-02")
    ∧ rdOfCivil 2026 1 2 < today0
    ∧ parse_natural_date du0 today0 "01/02" ≠ .ok "2027-01-02" :=
  C3_past_dates_returned du0 (fun _ => Or.inl rfl) (fun _ => Or.inl rfl)

/-! ## C10 -/

/-- C10 counterexample: on the ISO-shaped but invalid calendar date
`2026-02-30`, `book_table` does not return the generic unexpected-error
message the claim describes; it returns the raw `strptime` ValueError text
`Error: day is out of range for month` through the date-validation
handler. -/
theorem C10_counterexample_not_generic :
    (book_table (okStore []) "Dan" "2026-02-30" "19:00" 4 none today0 du0).message
      = "Error: day is out of range for month"
    ∧ strStartsWith
        (book_table (okStore []) "Dan" "2026-02-30" "19:00" 4 none today0 du0).message
        "Error: An unexpected error occurred" = false := by
  refine ⟨?_, ?_⟩ <;> decide

/-- C10 (corrected): `parse_natural_date` accepts `2026-02-30` via the
`YYYY-MM-DD` passthrough and returns it unchanged (no `UnparsableDate`),
and `book_table` on that date then fails — before any store interaction —
with the caught ValueError text `Error: day is out of range for month`,
which belongs to no error of the taxonomy. -/
theorem C10_invalid_iso_passthrough :
    parse_natural_date du0 today0 "2026-02-30" = .ok "2026-02-30"
    ∧ book_table (okStore []) "Dan" "2026-02-30" "19:00" 4 none today0 du0
      = ⟨"Error: day is out of range for month", false, false⟩ := by
  refine ⟨?_, ?_⟩ <;> decide

/-! ## C2 -/

/-- C2 counterexample: with no existing reservations and a party of 60 the
claimed reject condition `total_guests_booked + party_size > 50` holds
(`0 + 60 > 50`), yet `check_availability` returns `available = true`,
because both capacity checks live inside `if unique_reservations:` and are
skipped when the match set is empty. -/
theorem C2_counterexample_empty_slot :
    (check_availability (okStore []) "2026-12-01" "19:00" 60).available = true
    ∧ uniqAt (okStore []).rows "2026-12-01" "19:00" = []
    ∧ sumGuests (uniqAt (okStore []).rows "2026-12-01" "19:00") + 60 > 50 := by
  refine ⟨?_, ?_, ?_⟩ <;> decide

/-- C2 (corrected): on a working store, `check_availability` returns
`available = false` exactly when the id-deduplicated match set at
`(date, time)` is nonempty and either the summed guests plus the party
exceed 50 or the table count is at least 10; in particular a slot whose
bookings sum to exactly `50 - party_size` (with fewer than 10 tables) is
accepted, and one more booked guest flips the same call to a
rejection. -/
theorem C2_reject_iff (st : Store) (date t : String) (party : Int)
    (hf : st.selectFails = false) :
    ((check_availability st date t party).available = false ↔
      (uniqAt st.rows date t ≠ []
        ∧ (50 < sumGuests (uniqAt st.rows date t) + party
            ∨ 10 ≤ (uniqAt st.rows date t).length)))
    ∧ (sumGuests (uniqAt st.rows date t) = 50 - party →
        (uniqAt st.rows date t).length < 10 →
        (check_availability st date t party).available = true)
    ∧ (sumGuests (uniqAt st.rows date t) = 51 - party → party ≤ 50 →
        (check_availability st date t party).available = false) := by
  have base : (check_availability st date t party).available = false ↔
      (uniqAt st.rows date t ≠ []
        ∧ (50 < sumGuests (uniqAt st.rows date t) + party
            ∨ 10 ≤ (uniqAt st.rows date t).length)) := by
    show (match selectRows st date t with
      | .error _ => failOpenResult
      | .ok r1 => _).available = false ↔ _
    rw [selectRows, selectRows, if_neg (by simp [hf]), if_neg (by simp [hf])]
    show (if (uniqAt st.rows date t).isEmpty then _
        else if 50 < sumGuests (uniqAt st.rows date t) + party then _
        else if 10 ≤ (uniqAt st.rows date t).length then _ else _ :
        AvailResult).available = false ↔ _
    split_ifs with h1 h2 h3 <;> simp_all [List.isEmpty_iff]
  refine ⟨base, fun hsum hlen => ?_, fun hsum hparty => ?_⟩
  · have : ¬ (check_availability st date t party).available = false := by
      rw [base]
      rintro ⟨-, h | h⟩ <;> omega
    revert this
    cases (check_availability st date t party).available <;> simp
  · rw [base]
    have hne : uniqAt st.rows date t ≠ [] := by
      intro he
      rw [he] at hsum
      simp [sumGuests] at hsum
      omega
    exact ⟨hne, Or.inl (by omega)⟩

/-- Witness for C2 at a concrete slot: 46 guests booked, party of 4 is
accepted (sum exactly 50); 47 guests booked, the same call is rejected. -/
theorem C2_reject_iff_witness :
    (check_availability (okStore [⟨1, "A", "2026-12-01", "19:00", 46, none⟩])
        "2026-12-01" "19:00" 4).available = true
    ∧ (check_availability (okStore [⟨1, "A", "2026-12-01", "19:00", 47, none⟩])
        "2026-12-01" "19:00" 4).available = false :=
  ⟨(C2_reject_iff (okStore [⟨1, "A", "2026-12-01", "19:00", 46, none⟩])
      "2026-12-01" "19:00" 4 rfl).2.1 (by decide) (by decide),
   (C2_reject_iff (okStore [⟨1, "A", "2026-12-01", "19:00", 47, none⟩])
      "2026-12-01" "19:00" 4 rfl).2.2 (by decide) (by decide)⟩

/-! ## C4 -/

/-- C4 (confirmed): when store reads raise during an availability check,
`check_availability` fails open — `available = true`, the proceeding
message, empty suggestions — for every date, time and party; and in
`book_table` the read error never blocks the subsequent insert: with
otherwise valid inputs the insert is attempted (and the booking
confirmed). -/
theorem C4_fail_open (rows : List Row) (wf : Bool) (em : String) (nid : Int)
    (date t : String) (party : Int) (name pd : String) (phone : Option String)
    (today rdate : Nat) (du : DuOracle) (h mnt : Nat) :
    (check_availability ⟨rows, true, wf, em, nid⟩ date t party = failOpenResult)
    ∧ (pyStrip name ≠ "" → 1 ≤ party → party ≤ 20 →
        parse_natural_date du today date = .ok pd →
        strptimeDate pd = .ok rdate → ¬ rdate < today →
        parseHM t = some (h, mnt) → 10 ≤ h → h < 23 →
        book_table ⟨rows, true, false, em, nid⟩ name date t party phone today du
          = ⟨bookConfirmMsg name rdate t party phone nid, true, true⟩) := by
  constructor
  · have hsel : selectRows ⟨rows, true, wf, em, nid⟩ date t = .error em := by
      rw [selectRows]; rfl
    simp only [check_availability, hsel]
  · intro hname hp1 hp20 hparse hstrp hpast hhm h10 h23
    have hav : check_availability ⟨rows, true, false, em, nid⟩ pd t party
        = failOpenResult := by
      have hsel : selectRows ⟨rows, true, false, em, nid⟩ pd t = .error em := by
        rw [selectRows]; rfl
      simp only [check_availability, hsel]
    have hcond : (decide (h < 10) || decide (23 ≤ h)) = false := by
      simp only [Bool.or_eq_false_iff, decide_eq_false_iff_not]
      omega
    simp only [book_table, if_neg hname, if_neg (show ¬ party ≤ 0 by omega),
      if_neg (show ¬ (20 : Int) < party by omega), hparse, hstrp,
      if_neg hpast, hhm, hcond, Bool.false_eq_true, if_false, hav]
    rfl

/-- Witness for C4: an outage store with one (invisible) row, a valid
booking request. -/
theorem C4_fail_open_witness :
    (check_availability ⟨[⟨1, "A", "2030-01-01", "19:00", 50, none⟩], true, false,
        "boom", 7⟩ "2030-01-01" "19:00" 4 = failOpenResult)
    ∧ book_table ⟨[⟨1, "A", "2030-01-01", "19:00", 50, none⟩], true, false,
          "boom", 7⟩ "Dan" "2030-01-01" "19:00" 4 none today0 du0
        = ⟨bookConfirmMsg "Dan" (rdOfCivil 2030 1 1) "19:00" 4 none 7, true, true⟩ :=
  ⟨(C4_fail_open [⟨1, "A", "2030-01-01", "19:00", 50, none⟩] false "boom" 7
      "2030-01-01" "19:00" 4 "Dan" "2030-01-01" none today0 (rdOfCivil 2030 1 1)
      du0 19 0).1,
   (C4_fail_open [⟨1, "A", "2030-01-01", "19:00", 50, none⟩] false "boom" 7
      "2030-01-01" "19:00" 4 "Dan" "2030-01-01" none today0 (rdOfCivil 2030 1 1)
      du0 19 0).2 (by decide) (by decide) (by decide) (by decide) (by decide)
      (by decide) (by decide) (by decide) (by decide)⟩

/-! ## C9 -/

/-- C9 (confirmed): `book_table` fails with the empty-name message for a
blank name, with the party-size messages for any party size outside
`[1, 20]`, with the time-format message for a time `strptime` rejects, and
with the opening-hours message for an hour below 10 or at least 23 — and
each of these failures happens before any store interaction: neither the
availability check nor the insert is reached. -/
theorem C9_validation_before_store (st : Store) (name date t : String)
    (party : Int) (phone : Option String) (today : Nat) (du : DuOracle) :
    (pyStrip name = "" →
      book_table st name date t party phone today du
        = ⟨"Error: Name is required and cannot be empty.", false, false⟩)
    ∧ (pyStrip name ≠ "" → party ≤ 0 →
      book_table st name date t party phone today du
        = ⟨"Error: Party size must be a positive number.", false, false⟩)
    ∧ (pyStrip name ≠ "" → 20 < party →
      book_table st name date t party phone today du
        = ⟨"Error: Party size cannot exceed 20 people. Please contact us directly for larger groups.",
            false, false⟩)
    ∧ (∀ pd rdate, pyStrip name ≠ "" → 1 ≤ party → party ≤ 20 →
        parse_natural_date du today date = .ok pd →
        strptimeDate pd = .ok rdate → ¬ rdate < today → parseHM t = none →
        book_table st name date t party phone today du
          = ⟨"Error: Invalid time format. Please use HH:MM format (24-hour).",
              false, false⟩)
    ∧ (∀ pd rdate h mnt, pyStrip name ≠ "" → 1 ≤ party → party ≤ 20 →
        parse_natural_date du today date = .ok pd →
        strptimeDate pd = .ok rdate → ¬ rdate < today →
        parseHM t = some (h, mnt) → (h < 10 ∨ 23 ≤ h) →
        book_table st name date t party phone today du
          = ⟨"Error: Restaurant is open from 10:00 AM to 11:00 PM. Please choose a time within these hours.",
              false, false⟩) := by
  refine ⟨fun hb => ?_, fun hname hp => ?_, fun hname hp => ?_,
    fun pd rdate hname hp1 hp20 hparse hstrp hpast hhm => ?_,
    fun pd rdate h mnt hname hp1 hp20 hparse hstrp hpast hhm hout => ?_⟩
  · simp only [book_table, if_pos hb]
  · simp only [book_table, if_neg hname, if_pos hp]
  · simp only [book_table, if_neg hname, if_neg (show ¬ party ≤ 0 by omega),
      if_pos hp]
  · simp only [book_table, if_neg hname, if_neg (show ¬ party ≤ 0 by omega),
      if_neg (show ¬ (20 : Int) < party by omega), hparse, hstrp,
      if_neg hpast, hhm]
  · have hcond : (decide (h < 10) || decide (23 ≤ h)) = true := by
      simp only [Bool.or_eq_true, decide_eq_true_eq]
      omega
    simp only [book_table, if_neg hname, if_neg (show ¬ party ≤ 0 by omega),
      if_neg (show ¬ (20 : Int) < party by omega), hparse, hstrp,
      if_neg hpast, hhm, hcond, if_true]

/-- Witness for C9: blank name, party 0, party 21, `7pm`, and `09:00`, all
against a healthy empty store with an otherwise valid request. -/
theorem C9_validation_before_store_witness :
    book_table (okStore []) "" "2030-01-01" "19:00" 4 none today0 du0
      = ⟨"Error: Name is required and cannot be empty.", false, false⟩
    ∧ book_table (okStore []) "Dan" "2030-01-01" "19:00" 0 none today0 du0
      = ⟨"Error: Party size must be a positive number.", false, false⟩
    ∧ book_table (okStore []) "Dan" "2030-01-01" "19:00" 21 none today0 du0
      = ⟨"Error: Party size cannot exceed 20 people. Please contact us directly for larger groups.",
          false, false⟩
    ∧ book_table (okStore []) "Dan" "2030-01-01" "7pm" 4 none today0 du0
      = ⟨"Error: Invalid time format. Please use HH:MM format (24-hour).",
          false, false⟩
    ∧ book_table (okStore []) "Dan" "2030-01-01" "09:00" 4 none today0 du0
      = ⟨"Error: Restaurant is open from 10:00 AM to 11:00 PM. Please choose a time within these hours.",
          false, false⟩ :=
  ⟨(C9_validation_before_store (okStore []) "" "2030-01-01" "19:00" 4 none
      today0 du0).1 (by decide),
   (C9_validation_before_store (okStore []) "Dan" "2030-01-01" "19:00" 0 none
      today0 du0).2.1 (by decide) (by decide),
   (C9_validation_before_store (okStore []) "Dan" "2030-01-01" "19:00" 21 none
      today0 du0).2.2.1 (by decide) (by decide),
   (C9_validation_before_store (okStore []) "Dan" "2030-01-01" "7pm" 4 none
      today0 du0).2.2.2.1 "2030-01-01" (rdOfCivil 2030 1 1) (by decide)
      (by decide) (by decide) (by decide) (by decide) (by decide) (by decide),
   (C9_validation_before_store (okStore []) "Dan" "2030-01-01" "09:00" 4 none
      today0 du0).2.2.2.2 "2030-01-01" (rdOfCivil 2030 1 1) 9 0 (by decide)
      (by decide) (by decide) (by decide) (by decide) (by decide) (by decide)
      (by decide)⟩

/-! ## C5 -/

/-- On a working store, a rejection publishes exactly the list produced by
`get_alternative_times`. -/
theorem reject_suggestions_eq (st : Store) (date t : String) (party : Int)
    (hf : st.selectFails = false)
    (hrej : (check_availability st date t party).available = false) :
    (check_availability st date t party).suggestions
      = get_alternative_times st date t party := by
  have hsel : ∀ tt, selectRows st date tt
      = .ok (st.rows.filter fun r => r.date = date && r.time = tt) := by
    intro tt
    rw [selectRows, if_neg (by simp [hf])]
  simp only [check_availability, hsel] at hrej ⊢
  split_ifs at hrej ⊢ <;> simp_all

/-- C5 counterexample: a request whose time string has no parsable hour
segment (here `bad`, with 60 guests already stored at that slot) is
rejected, but the suggestions list is the catch-all phone-number line,
which is none of the `HH:00` slot lines the claim requires. -/
theorem C5_counterexample_fallback :
    (check_availability (okStore [⟨1, "A", "2026-12-01", "bad", 60, none⟩])
        "2026-12-01" "bad" 1).available = false
    ∧ (check_availability (okStore [⟨1, "A", "2026-12-01", "bad", 60, none⟩])
        "2026-12-01" "bad" 1).suggestions = [fallbackLine]
    ∧ ((List.range' 10 13).all
        fun slot => decide (fallbackLine ≠ altLine slot 1)) = true := by
  refine ⟨?_, ?_, ?_⟩ <;> decide

/-- C5 (corrected, needing a parsable requested hour): whenever
`check_availability` rejects a request whose time has an integer hour
prefix, the published suggestions are the second components of `altPairs`:
at most 3 entries, each an `HH:00` line for a slot in `[10, 22]` distinct
from the requested time that itself satisfies both capacity thresholds,
keyed and ordered by ascending absolute hour distance from the requested
time. -/
theorem C5_suggestions_shape (st : Store) (date t : String) (party h : Int)
    (hh : parseIntPy ((splitOnChar ':' t).headD "") = some h)
    (hf : st.selectFails = false)
    (hrej : (check_availability st date t party).available = false) :
    (check_availability st date t party).suggestions
        = (altPairs st.rows date t party h).map Prod.snd
    ∧ (altPairs st.rows date t party h).length ≤ 3
    ∧ (∀ p ∈ altPairs st.rows date t party h, ∃ slot, 10 ≤ slot ∧ slot ≤ 22
        ∧ slotStr slot ≠ t ∧ slotOK st.rows date slot party = true
        ∧ p = (((slot : Int) - h).natAbs, altLine slot party))
    ∧ List.Pairwise (fun a b : Nat × String => a.1 ≤ b.1)
        (altPairs st.rows date t party h) := by
  haveI instTot : IsTotal (Nat × String) (fun a b => a.1 ≤ b.1) :=
    ⟨fun a b => Nat.le_total a.1 b.1⟩
  haveI instTrans : IsTrans (Nat × String) (fun a b => a.1 ≤ b.1) :=
    ⟨fun _ _ _ hab hbc => le_trans hab hbc⟩
  refine ⟨?_, ?_, ?_, ?_⟩
  · rw [reject_suggestions_eq st date t party hf hrej]
    simp only [get_alternative_times, hh, hf, if_false, Bool.false_eq_true]
  · exact List.length_take_le 3 _
  · intro p hp
    have hp1 : p ∈ ((hourSlots.filter
        (fun slot => decide (slotStr slot ≠ t) && slotOK st.rows date slot party)).map
          (fun (slot : Nat) => (((slot : Int) - h).natAbs, altLine slot party))) := by
      have := List.take_subset 3 _ hp
      rwa [List.mem_insertionSort] at this
    rcases List.mem_map.mp hp1 with ⟨slot, hslot, hval⟩
    rcases List.mem_filter.mp hslot with ⟨hmem, hpred⟩
    rcases (Bool.and_eq_true _ _).mp hpred with ⟨hneq, hok⟩
    have hrange : 10 ≤ slot ∧ slot ≤ 22 := by
      rcases List.mem_range'.mp hmem with ⟨i, hi, rfl⟩
      omega
    exact ⟨slot, hrange.1, hrange.2, of_decide_eq_true hneq, hok, hval.symm⟩
  · exact List.Pairwise.sublist (List.take_sublist 3 _)
      (List.sorted_insertionSort (fun a b : Nat × String => a.1 ≤ b.1) _)

/-- Witness for C5 at a concrete over-capacity slot (47 booked, party of
4, requested 19:00). -/
theorem C5_suggestions_shape_witness :
    (check_availability (okStore [⟨1, "A", "2026-12-01", "19:00", 47, none⟩])
        "2026-12-01" "19:00" 4).suggestions
      = (altPairs (okStore [⟨1, "A", "2026-12-01", "19:00", 47, none⟩]).rows
          "2026-12-01" "19:00" 4 19).map Prod.snd
    ∧ (altPairs (okStore [⟨1, "A", "2026-12-01", "19:00", 47, none⟩]).rows
        "2026-12-01" "19:00" 4 19).length ≤ 3
    ∧ (∀ p ∈ altPairs (okStore [⟨1, "A", "2026-12-01", "19:00", 47, none⟩]).rows
          "2026-12-01" "19:00" 4 19, ∃ slot, 10 ≤ slot ∧ slot ≤ 22
        ∧ slotStr slot ≠ "19:00"
        ∧ slotOK (okStore [⟨1, "A", "2026-12-01", "19:00", 47, none⟩]).rows
            "2026-12-01" slot 4 = true
        ∧ p = (((slot : Int) - 19).natAbs, altLine slot 4))
    ∧ List.Pairwise (fun a b : Nat × String => a.1 ≤ b.1)
        (altPairs (okStore [⟨1, "A", "2026-12-01", "19:00", 47, none⟩]).rows
          "2026-12-01" "19:00" 4 19) :=
  C5_suggestions_shape (okStore [⟨1, "A", "2026-12-01", "19:00", 47, none⟩])
    "2026-12-01" "19:00" 4 19 (by decide) rfl (by decide)

end DineAI
